import Mathlib

/-!
# Verification of the aiosonos event subsystem (`aiosonos/event.py`)

A shallow embedding of the UPnP GENA subscription state machine and the
notification server of `aiosonos/event.py`.  Python object mutation is
modelled by explicit state passing over a `World` record holding the list
of `Subscription` objects and the class-level `_instances` registry;
Python exceptions are modelled by `Except` / an `Option PyErr` component
of each operation's result, with the crucial property that side effects
performed before an exception is raised persist (each operation returns
the mutated world together with the optional exception).  Network I/O is
modelled by passing the response (or transport error) that the network
would deliver as an explicit argument.
-/

namespace Aiosonos

/-- Python exception values that the embedded code can raise. -/
inductive PyErr where
  | sonosError (msg : String)
  | keyError (key : String)
  | httpError (status : Nat)
  | valueError (msg : String)
  | transportError (msg : String)
  | callbackError (msg : String)
deriving Repr, DecidableEq

/-- HTTP headers as a list of (name, value) pairs; lookups are
case-insensitive, mirroring aiohttp's `CIMultiDict`. -/
abbrev Headers := List (String × String)

/-- Python `str.lower()` (ASCII case folding suffices for the header
values used by the code). -/
def pyLower (s : String) : String := String.mk (s.data.map Char.toLower)

/-- Case-insensitive header lookup, returning `none` when absent
(`CIMultiDict.get`). -/
def hFind (hs : Headers) (k : String) : Option String :=
  (hs.find? (fun p => pyLower p.1 == pyLower k)).map Prod.snd

/-- Case-insensitive header lookup raising `KeyError` when absent
(Python `headers[k]`). -/
def hGet (hs : Headers) (k : String) : Except PyErr String :=
  match hFind hs k with
  | some v => .ok v
  | none => .error (.keyError k)

/-- Decimal value of a list of digit characters (most significant first). -/
def digitsVal (cs : List Char) : Nat :=
  cs.foldl (fun a c => 10 * a + (c.toNat - 48)) 0

/-- Python `int(s)` restricted to its decimal form: optional surrounding
whitespace, an optional sign, then decimal digits; anything else raises
`ValueError`. -/
def pyInt (s : String) : Except PyErr Int :=
  let t := ((s.data.dropWhile Char.isWhitespace).reverse.dropWhile Char.isWhitespace).reverse
  match t with
  | [] => .error (.valueError s)
  | c :: rest =>
    if c = '-' then
      if rest ≠ [] ∧ rest.all Char.isDigit then .ok (-(digitsVal rest : Int))
      else .error (.valueError s)
    else if c = '+' then
      if rest ≠ [] ∧ rest.all Char.isDigit then .ok (digitsVal rest : Int)
      else .error (.valueError s)
    else if (c :: rest).all Char.isDigit then .ok (digitsVal (c :: rest) : Int)
    else .error (.valueError s)

/-- The character set of the Python literal `"Second-"`; `str.lstrip`
treats its argument as a set of characters. -/
def secondChars : List Char := ['S', 'e', 'c', 'o', 'n', 'd', '-']

/-- Python `s.lstrip(chars)`: drop leading characters belonging to the set. -/
def pyLStrip (chars : List Char) (s : String) : String :=
  String.mk (s.data.dropWhile (fun c => chars.contains c))

/-- The value computation of `Subscription._parse_timeout` once the
`TIMEOUT` header value is in hand:
`if timeout.lower() == "infinite": return -1` else
`return int(timeout.lstrip("Second-"))`. -/
def parseTimeoutValue (timeout : String) : Except PyErr Int :=
  if pyLower timeout = "infinite" then .ok (-1)
  else pyInt (pyLStrip secondChars timeout)

/-- `Subscription._parse_timeout(headers)`: `headers["timeout"]` (KeyError
when absent) followed by the value computation. -/
def parse_timeout (headers : Headers) : Except PyErr Int := do
  let t ← hGet headers "timeout"
  parseTimeoutValue t

/-- Status of an asyncio task handle (`Subscription.auto_renew_task`). -/
inductive TaskStatus where
  | running
  | cancelled
deriving Repr, DecidableEq

/-- The mutable fields of one `Subscription` object, together with the
immutable data (`player.base_url`, `service.event_subscription_url`) that
its methods read. -/
structure Sub where
  base_url : String
  event_subscription_url : String
  state : Nat
  sid : String
  subscribe_url : String
  timeout : Int
  timestamp : Nat
  auto_renew_delay : Option Int
  auto_renew_task : Option TaskStatus
deriving Repr, DecidableEq

/-- `Subscription.__init__`: state 0 (brand new), empty sid and url,
timeout sentinel -1, no auto-renew machinery. -/
def Sub.init (base eventUrl : String) : Sub :=
  { base_url := base
    event_subscription_url := eventUrl
    state := 0
    sid := ""
    subscribe_url := ""
    timeout := -1
    timestamp := 0
    auto_renew_delay := none
    auto_renew_task := none }

/-- The process-wide state: the `Subscription` objects (identified by
their position in the list, playing the role of Python object identity)
and the class-level registry `Subscription._instances`, an
insertion-ordered dict from sid to the object holding it. -/
structure World where
  subs : List Sub
  instances : List (String × Nat)
deriving Repr, DecidableEq

/-- Python dict assignment `d[k] = v`: overwrite in place if the key
exists, else append (dicts preserve insertion order). -/
def dictSet (d : List (String × Nat)) (k : String) (v : Nat) : List (String × Nat) :=
  if d.any (fun p => p.1 == k) then d.map (fun p => if p.1 == k then (k, v) else p)
  else d ++ [(k, v)]

/-- Python `d.get(k)` (`Subscription.get_instance`): `none` when absent. -/
def dictGet (d : List (String × Nat)) (k : String) : Option Nat :=
  (d.find? (fun p => p.1 == k)).map Prod.snd

/-- Python `del d[k]`: remove the key, raising `KeyError` when absent. -/
def dictDel (d : List (String × Nat)) (k : String) :
    Except PyErr (List (String × Nat)) :=
  if d.any (fun p => p.1 == k) then .ok (d.filter (fun p => !(p.1 == k)))
  else .error (.keyError k)

/-- An HTTP response as seen by the client code: status and headers. -/
structure Response where
  status : Nat
  headers : Headers
deriving Repr, DecidableEq

/-- What the network delivers for one outbound request: a response, or a
transport error raised by the HTTP client. -/
abbrev NetResult := Except PyErr Response

/-- A record of one outbound HTTP request (method and URL), used to state
which network calls an operation performs. -/
structure NetCall where
  method : String
  url : String
deriving Repr, DecidableEq

/-- Result of running one subscription operation: the possibly-mutated
world, the exception that escaped (if any), and the outbound network
calls that were made.  Mutations made before an exception persist, as in
Python. -/
structure StepResult where
  world : World
  err : Option PyErr
  calls : List NetCall
deriving Repr, DecidableEq

/-- Read subscription object `i` (Python attribute access through an
object reference). -/
def getSub (w : World) (i : Nat) : Option Sub := w.subs.get? i

/-- Write back subscription object `i` after a field mutation. -/
def setSub (w : World) (i : Nat) (s : Sub) : World :=
  { w with subs := w.subs.set i s }

/-- The usage error raised by `Subscription.subscribe` outside state 0. -/
def subscribeUsageError : PyErr :=
  .sonosError "Can only subscribe a brand-new Subscription object"

/-- The usage error raised by `Subscription.renew` outside state 1. -/
def renewUsageError : PyErr :=
  .sonosError "Can only renew a Subscription in subscribed state"

/-- `Subscription.subscribe(auto_renew)`.  `resp` is what the network
delivers for the SUBSCRIBE request; `now` is `time.time()`.  The source
order of effects is preserved: the state check first; `subscribe_url` is
assigned before the request; after `raise_for_status` (any status ≥ 400
raises), `sid` is assigned from the `SID` header (KeyError when absent),
the object is registered in `_instances`, and only then is the `TIMEOUT`
header parsed (KeyError when absent), the timestamp recorded, the state
set to 1, and — when `auto_renew` was requested and the granted timeout
is positive — the renewal delay computed (95% below 3600 s, minus 180 s
above) and the renewal task created.  An exception leaves every mutation
already made in place.  The renewal delay models Python's
`int(self.timeout * 0.95)` as integer arithmetic. -/
def Sub.subscribe (i : Nat) (auto_renew : Bool) (resp : NetResult) (now : Nat)
    (w : World) : StepResult :=
  match getSub w i with
  | none => ⟨w, some (.keyError "subscription"), []⟩
  | some s0 =>
    if s0.state ≠ 0 then ⟨w, some subscribeUsageError, []⟩
    else
      let s1 := { s0 with subscribe_url := s0.base_url ++ s0.event_subscription_url }
      let call : List NetCall := [⟨"SUBSCRIBE", s1.subscribe_url⟩]
      match resp with
      | .error e => ⟨setSub w i s1, some e, call⟩
      | .ok r =>
        if r.status ≥ 400 then ⟨setSub w i s1, some (.httpError r.status), call⟩
        else
          match hGet r.headers "sid" with
          | .error e => ⟨setSub w i s1, some e, call⟩
          | .ok sid =>
            let s2 := { s1 with sid := sid }
            let inst2 := dictSet w.instances sid i
            match parse_timeout r.headers with
            | .error e => ⟨{ setSub w i s2 with instances := inst2 }, some e, call⟩
            | .ok t =>
              let s3 := { s2 with timeout := t, timestamp := now, state := 1 }
              let s4 :=
                if auto_renew ∧ t > 0 then
                  { s3 with
                    auto_renew_delay :=
                      some (if t ≤ 3600 then t * 95 / 100 else t - 180)
                    auto_renew_task := some .running }
                else s3
              ⟨{ setSub w i s4 with instances := inst2 }, none, call⟩

/-- `Subscription.renew()`.  State check first (usage error outside
state 1, no network call); then the SUBSCRIBE request with the `SID`
header; `raise_for_status`; then timeout and timestamp are updated in
place.  The sid and state are never written. -/
def Sub.renew (i : Nat) (resp : NetResult) (now : Nat) (w : World) : StepResult :=
  match getSub w i with
  | none => ⟨w, some (.keyError "subscription"), []⟩
  | some s0 =>
    if s0.state ≠ 1 then ⟨w, some renewUsageError, []⟩
    else
      let call : List NetCall := [⟨"SUBSCRIBE", s0.subscribe_url⟩]
      match resp with
      | .error e => ⟨w, some e, call⟩
      | .ok r =>
        if r.status ≥ 400 then ⟨w, some (.httpError r.status), call⟩
        else
          match parse_timeout r.headers with
          | .error e => ⟨w, some e, call⟩
          | .ok t => ⟨setSub w i { s0 with timeout := t, timestamp := now }, none, call⟩

/-- `Subscription.unsubscribe()`.  Outside state 1 it logs and returns
(no error, no network call).  From state 1 it sends UNSUBSCRIBE; a
transport error propagates (there is no try/except around the request).
Only on status exactly 200 does it set `state = 2` and then
`del _instances[sid]`; any other status leaves everything unchanged and
returns without error.  Note the source order: the state assignment
precedes the dict deletion. -/
def Sub.unsubscribe (i : Nat) (resp : NetResult) (w : World) : StepResult :=
  match getSub w i with
  | none => ⟨w, some (.keyError "subscription"), []⟩
  | some s0 =>
    if s0.state ≠ 1 then ⟨w, none, []⟩
    else
      let call : List NetCall :=
        [⟨"UNSUBSCRIBE", s0.base_url ++ s0.event_subscription_url⟩]
      match resp with
      | .error e => ⟨w, some e, call⟩
      | .ok r =>
        if r.status = 200 then
          let w2 := setSub w i { s0 with state := 2 }
          match dictDel w2.instances s0.sid with
          | .ok d => ⟨{ w2 with instances := d }, none, call⟩
          | .error e => ⟨w2, some e, call⟩
        else ⟨w, none, call⟩

/-- The loop body of `Subscription.unsubscribe_all`, iterating over the
snapshot `list(cls._instances.values())`.  Each iteration consumes the
head of `resps` as the network's answer to that unsubscribe attempt.  An
exception escaping `unsubscribe()` propagates and aborts the remaining
iterations (the loop body has no try/except). -/
def unsubscribeAllGo : List Nat → List NetResult → World → List NetCall → StepResult
  | [], _, w, acc => ⟨w, none, acc⟩
  | i :: rest, resps, w, acc =>
    let r := Sub.unsubscribe i (resps.headD (.error (.transportError "no response"))) w
    match r.err with
    | some e => ⟨r.world, some e, acc ++ r.calls⟩
    | none => unsubscribeAllGo rest resps.tail r.world (acc ++ r.calls)

/-- `Subscription.unsubscribe_all()`: snapshot the registry values
(`list(cls._instances.values())`, in insertion order) before iterating,
then unsubscribe each in turn. -/
def unsubscribe_all (resps : List NetResult) (w : World) : StepResult :=
  unsubscribeAllGo (w.instances.map Prod.snd) resps w []

/-- One iteration of `Subscription._auto_renew_loop` after the sleep: it
fires only while the task exists and has not been cancelled; it calls
`renew()` and catches every exception, logging it (the returned
`Option PyErr` is the logged exception) and continuing. -/
def auto_renew_loop_iter (i : Nat) (resp : NetResult) (now : Nat) (w : World) :
    World × Option PyErr :=
  match getSub w i with
  | none => (w, none)
  | some s =>
    match s.auto_renew_task with
    | some TaskStatus.running =>
      let r := Sub.renew i resp now w
      (r.world, r.err)
    | _ => (w, none)

/-- An inbound HTTP request as seen by `EventServer.handle`: method,
headers (case-insensitive lookup) and the body already read. -/
structure Request where
  method : String
  headers : Headers
  body : String
deriving Repr, DecidableEq

/-- Property map produced by `parsers.parse_event_body`; the notification
server treats it opaquely, so string-valued properties suffice for the
dispatch model. -/
abbrev Props := List (String × String)

/-- The `Event` object built by `EventServer.parse_event`: the
originating subscription (by object identity, i.e. index), the sequence
number from the `SEQ` header, and the parsed property map. -/
structure EventV where
  sub : Nat
  seq : Int
  properties : Props
deriving Repr, DecidableEq

deriving instance DecidableEq for Except

/-- Result of `EventServer.parse_event`: how many registry lookups
(`Subscription.get_instance`) were performed, and either the raised
exception or the optional event ( `none` mirrors the `(None, None)`
return for an unknown sid). -/
structure ParseEventResult where
  lookups : Nat
  result : Except PyErr (Option EventV)
deriving Repr, DecidableEq

/-- `EventServer.parse_event(headers, body)`, parameterised by the body
parser `parse` (the `parsers.parse_event_body` collaborator).  Source
order: `headers['sid']` (KeyError when absent), then
`int(headers['seq'])` (KeyError / ValueError), then the registry lookup;
unknown sid yields `(None, None)`; otherwise the body is parsed and the
`Event` constructed. -/
def parse_event (parse : String → Props) (w : World) (headers : Headers)
    (body : String) : ParseEventResult :=
  match hGet headers "sid" with
  | .error e => ⟨0, .error e⟩
  | .ok sid =>
    match hGet headers "seq" with
    | .error e => ⟨0, .error e⟩
    | .ok seqStr =>
      match pyInt seqStr with
      | .error e => ⟨0, .error e⟩
      | .ok sq =>
        match dictGet w.instances sid with
        | none => ⟨1, .ok none⟩
        | some i => ⟨1, .ok (some ⟨i, sq, parse body⟩)⟩

/-- Result of `EventServer.handle`: the registry lookups performed, the
`handle_event` invocations scheduled through `loop.call_soon` (scheduled,
not run — the response is returned to the player first), and the HTTP
response produced by the handler itself, or the exception that escaped
it. -/
structure HandleResult where
  lookups : Nat
  scheduled : List EventV
  response : Except PyErr (Nat × String)
deriving Repr, DecidableEq

/-- `EventServer.handle(request)`.  The guard is Python's short-circuit
`request.method == 'NOTIFY' and request.headers['content-type'] ==
'text/xml'`: a non-NOTIFY method skips the header access entirely, while
a NOTIFY without a Content-Type header raises KeyError.  When the guard
holds, `parse_event` runs and a known subscription gets exactly one
`handle_event` invocation scheduled; in every non-raising path the
handler returns `web.Response(text='')`, i.e. status 200 with an empty
body. -/
def EventServer.handle (parse : String → Props) (w : World) (req : Request) :
    HandleResult :=
  if req.method = "NOTIFY" then
    match hGet req.headers "content-type" with
    | .error e => ⟨0, [], .error e⟩
    | .ok ct =>
      if ct = "text/xml" then
        let pr := parse_event parse w req.headers req.body
        match pr.result with
        | .error e => ⟨pr.lookups, [], .error e⟩
        | .ok none => ⟨pr.lookups, [], .ok (200, "")⟩
        | .ok (some ev) => ⟨pr.lookups, [ev], .ok (200, "")⟩
      else ⟨0, [], .ok (200, "")⟩
  else ⟨0, [], .ok (200, "")⟩

/-- The HTTP status the device observes: the handler's own response
status, or 500 when an exception escapes the handler (aiohttp's
`web.Server` converts an uncaught handler exception into an Internal
Server Error response). -/
def serverStatus (h : HandleResult) : Nat :=
  match h.response with
  | .ok st => st.1
  | .error _ => 500

/-- `Subscription.handle_event(event)`: a log line and then
`self.callback(event)`, with no try/except — an exception raised by the
caller-supplied callback propagates to the caller of `handle_event`. -/
def Sub.handle_event (callback : EventV → Except PyErr Unit) (e : EventV) :
    Except PyErr Unit :=
  callback e

/-- The full server step for one inbound request: `handle` computes the
response and schedules the handler invocations; the scheduled
`handle_event` calls run afterwards on the event loop, each producing
its own outcome. -/
def serverStep (parse : String → Props) (callback : EventV → Except PyErr Unit)
    (w : World) (req : Request) : HandleResult × List (Except PyErr Unit) :=
  let h := EventServer.handle parse w req
  (h, h.scheduled.map (Sub.handle_event callback))

/-! ## Helper lemmas -/

theorem digit_not_ws (c : Char) (h : c.isDigit = true) : c.isWhitespace = false := by
  rcases Bool.eq_false_or_eq_true c.isWhitespace with hw | hw
  · exfalso
    simp [Char.isWhitespace] at hw
    rcases hw with ((h1 | h1) | h1) | h1 <;> subst h1 <;> exact absurd h (by decide)
  · exact hw

theorem digit_not_second (c : Char) (h : c.isDigit = true) :
    secondChars.contains c = false := by
  rcases Bool.eq_false_or_eq_true (secondChars.contains c) with hw | hw
  · exfalso
    have hm : c ∈ secondChars := by simpa using hw
    simp [secondChars] at hm
    rcases hm with h1 | h1 | h1 | h1 | h1 | h1 | h1 <;> subst h1 <;>
      exact absurd h (by decide)
  · exact hw

theorem dropWhile_all_true (p : Char → Bool) (l1 l2 : List Char)
    (h : ∀ x ∈ l1, p x = true) :
    List.dropWhile p (l1 ++ l2) = List.dropWhile p l2 := by
  induction l1 with
  | nil => rfl
  | cons a l ih =>
    rw [List.cons_append, List.dropWhile_cons, h a (by simp)]
    exact ih (fun x hx => h x (by simp [hx]))

theorem dropWhile_all_false (p : Char → Bool) (l : List Char)
    (h : ∀ x ∈ l, p x = false) : l.dropWhile p = l := by
  cases l with
  | nil => rfl
  | cons a l =>
    rw [List.dropWhile_cons, h a (by simp)]
    simp

theorem lstrip_second (cs : List Char) (h2 : ∀ c ∈ cs, c.isDigit = true) :
    pyLStrip secondChars ("Second-" ++ String.mk cs) = String.mk cs := by
  unfold pyLStrip
  have hd : ("Second-" ++ String.mk cs).data = ['S','e','c','o','n','d','-'] ++ cs := by
    rw [String.data_append]
  rw [hd, dropWhile_all_true _ _ _ (by decide), dropWhile_all_false]
  intro x hx
  exact digit_not_second x (h2 x hx)

theorem pyInt_digits (cs : List Char) (h1 : cs ≠ []) (h2 : ∀ c ∈ cs, c.isDigit = true) :
    pyInt (String.mk cs) = .ok ((digitsVal cs : Nat) : Int) := by
  have hws : ∀ x ∈ cs, x.isWhitespace = false := fun x hx => digit_not_ws x (h2 x hx)
  have hda : (String.mk cs).data = cs := rfl
  unfold pyInt
  rw [hda, dropWhile_all_false _ _ hws,
      dropWhile_all_false _ _ (fun x hx => hws x (List.mem_reverse.mp hx)),
      List.reverse_reverse]
  obtain ⟨c, rest, rfl⟩ := List.exists_cons_of_ne_nil h1
  have hc : c.isDigit = true := h2 c (by simp)
  have hcm : c ≠ '-' := by intro h; subst h; exact absurd hc (by decide)
  have hcp : c ≠ '+' := by intro h; subst h; exact absurd hc (by decide)
  have hall : (c :: rest).all Char.isDigit = true :=
    List.all_eq_true.mpr (fun x hx => h2 x hx)
  simp only [hcm, hcp, if_false, hall, if_true]

theorem pyLower_second_ne (s : String) : pyLower ("Second-" ++ s) ≠ "infinite" := by
  intro h
  have hd : (pyLower ("Second-" ++ s)).data = "infinite".data := by rw [h]
  unfold pyLower at hd
  rw [String.data_append] at hd
  have hsi : ('s' : Char) = 'i' := by
    have h2 : List.map Char.toLower (['S','e','c','o','n','d','-'] ++ s.data) =
        'i' :: "nfinite".data := hd
    simpa using congrArg (fun l => l.headD 'x') h2
  exact absurd hsi (by decide)

theorem parseTimeoutValue_second (cs : List Char) (h1 : cs ≠ [])
    (h2 : ∀ c ∈ cs, c.isDigit = true) :
    parseTimeoutValue ("Second-" ++ String.mk cs) = .ok ((digitsVal cs : Nat) : Int) := by
  unfold parseTimeoutValue
  rw [if_neg (pyLower_second_ne _), lstrip_second cs h2, pyInt_digits cs h1 h2]

theorem get?_set_self {α : Type} (l : List α) (i : Nat) (s0 s : α)
    (h : l.get? i = some s0) : (l.set i s).get? i = some s := by
  have hlt : i < l.length := by
    by_contra hn
    rw [List.get?_eq_none.mpr (by omega)] at h
    exact Option.noConfusion h
  simp [List.get?_eq_getElem?, List.getElem?_set_eq_of_lt, hlt]

theorem get?_set_ne {α : Type} (l : List α) (i j : Nat) (s : α) (h : i ≠ j) :
    (l.set i s).get? j = l.get? j := by
  simp [List.get?_eq_getElem?, List.getElem?_set_ne, h]

theorem getSub_setSub_self (w : World) (i : Nat) (s0 s : Sub)
    (h : getSub w i = some s0) : getSub (setSub w i s) i = some s :=
  get?_set_self w.subs i s0 s h

theorem subscribe_not_new (w : World) (i : Nat) (s : Sub) (ar : Bool)
    (resp : NetResult) (now : Nat) (h : getSub w i = some s) (hs : s.state ≠ 0) :
    Sub.subscribe i ar resp now w = ⟨w, some subscribeUsageError, []⟩ := by
  unfold Sub.subscribe
  rw [h]
  simp [hs]

theorem subscribe_success (w : World) (i : Nat) (s : Sub) (ar : Bool)
    (resp : NetResult) (now : Nat) (h : getSub w i = some s)
    (he : (Sub.subscribe i ar resp now w).err = none) :
    s.state = 0 ∧
      ((getSub (Sub.subscribe i ar resp now w).world i).map Sub.state) = some 1 := by
  by_cases hs : s.state = 0
  · refine ⟨hs, ?_⟩
    unfold Sub.subscribe at he ⊢
    rw [h] at he ⊢
    simp only [hs, ne_eq, not_true_eq_false, if_false, ite_false, reduceIte] at he ⊢
    cases resp with
    | error e => simp at he
    | ok r =>
      by_cases hst : r.status ≥ 400
      · simp [hst] at he
      · simp only [hst, if_false, ite_false, reduceIte] at he ⊢
        cases hsid : hGet r.headers "sid" with
        | error e => simp [hsid] at he
        | ok sid =>
          simp only [hsid] at he ⊢
          cases hpt : parse_timeout r.headers with
          | error e => simp [hpt] at he
          | ok t =>
            simp only [hpt] at he ⊢
            simp only [getSub, setSub]
            rw [get?_set_self w.subs i s _ h]
            by_cases har : ar = true ∧ t > 0
            · simp [har]
            · simp [har]
  · rw [subscribe_not_new w i s ar resp now h hs] at he
    exact absurd he (by simp)

theorem renew_not_subscribed (w : World) (i : Nat) (s : Sub)
    (resp : NetResult) (now : Nat) (h : getSub w i = some s) (hs : s.state ≠ 1) :
    Sub.renew i resp now w = ⟨w, some renewUsageError, []⟩ := by
  unfold Sub.renew
  rw [h]
  simp [hs]

theorem renew_success (w : World) (i : Nat) (s : Sub)
    (resp : NetResult) (now : Nat) (h : getSub w i = some s)
    (he : (Sub.renew i resp now w).err = none) :
    s.state = 1 ∧
      ((getSub (Sub.renew i resp now w).world i).map Sub.state) = some 1 := by
  by_cases hs : s.state = 1
  · refine ⟨hs, ?_⟩
    unfold Sub.renew at he ⊢
    rw [h] at he ⊢
    simp only [hs, ne_eq, not_true_eq_false, if_false, ite_false, reduceIte] at he ⊢
    cases resp with
    | error e => simp at he
    | ok r =>
      by_cases hst : r.status ≥ 400
      · simp [hst] at he
      · simp only [hst, if_false, ite_false, reduceIte] at he ⊢
        cases hpt : parse_timeout r.headers with
        | error e => simp [hpt] at he
        | ok t =>
          simp only [hpt] at he ⊢
          simp only [getSub, setSub]
          rw [get?_set_self w.subs i s _ h]
          simp [hs]
  · rw [renew_not_subscribed w i s resp now h hs] at he
    exact absurd he (by simp)

theorem unsubscribe_noop (w : World) (i : Nat) (s : Sub)
    (resp : NetResult) (h : getSub w i = some s) (hs : s.state ≠ 1) :
    Sub.unsubscribe i resp w = ⟨w, none, []⟩ := by
  unfold Sub.unsubscribe
  rw [h]
  simp [hs]

theorem unsubscribe_200_state (w : World) (i : Nat) (s : Sub) (r : Response)
    (h : getSub w i = some s) (hs : s.state = 1) (hst : r.status = 200) :
    ((getSub (Sub.unsubscribe i (.ok r) w).world i).map Sub.state) = some 2 := by
  unfold Sub.unsubscribe
  rw [h]
  simp only [hs, ne_eq, not_true_eq_false, if_false, ite_false, reduceIte, hst,
    if_true, reduceIte]
  cases hd : dictDel (setSub w i { s with state := 2 }).instances s.sid with
  | ok d =>
    simp only [getSub, setSub]
    rw [get?_set_self w.subs i s _ h]
    rfl
  | error e =>
    simp only [getSub, setSub]
    rw [get?_set_self w.subs i s _ h]
    rfl

theorem unsubscribe_ok200 (w : World) (i : Nat) (s : Sub) (r : Response)
    (h : getSub w i = some s) (hs : s.state = 1) (h200 : r.status = 200)
    (hmem : w.instances.any (fun p => p.1 == s.sid) = true) :
    Sub.unsubscribe i (.ok r) w =
      ⟨⟨w.subs.set i { s with state := 2 },
          w.instances.filter (fun p => !(p.1 == s.sid))⟩,
        none, [⟨"UNSUBSCRIBE", s.base_url ++ s.event_subscription_url⟩]⟩ := by
  unfold Sub.unsubscribe
  rw [h]
  simp only [hs, ne_eq, not_true_eq_false, if_false, ite_false, reduceIte, h200,
    if_true, reduceIte]
  have hinst : (setSub w i { s with state := 2 }).instances = w.instances := rfl
  rw [hinst]
  unfold dictDel
  rw [if_pos hmem]
  rfl

theorem go_ok (pend : List (String × Nat)) :
    ∀ (resps : List NetResult) (w : World) (acc : List NetCall),
    (∀ p ∈ pend, ∃ s, getSub w p.2 = some s ∧ s.state = 1 ∧ s.sid = p.1) →
    (pend.map Prod.fst).Nodup →
    (pend.map Prod.snd).Nodup →
    w.instances = pend →
    pend.length ≤ resps.length →
    (∀ r ∈ resps, ∃ hs, r = .ok ⟨200, hs⟩) →
    (unsubscribeAllGo (pend.map Prod.snd) resps w acc).err = none ∧
    (unsubscribeAllGo (pend.map Prod.snd) resps w acc).world.instances = [] ∧
    (unsubscribeAllGo (pend.map Prod.snd) resps w acc).calls.length
      = acc.length + pend.length ∧
    (∀ j, j ∉ pend.map Prod.snd →
      getSub (unsubscribeAllGo (pend.map Prod.snd) resps w acc).world j = getSub w j) ∧
    (∀ p ∈ pend,
      ((getSub (unsubscribeAllGo (pend.map Prod.snd) resps w acc).world p.2).map Sub.state)
        = some 2) := by
  induction pend with
  | nil =>
    intro resps w acc _ _ _ hinst _ _
    simp [unsubscribeAllGo, hinst]
  | cons hd rest ih =>
    intro resps w acc hw hkeys hidx hinst hlen hall
    obtain ⟨k0, j0⟩ := hd
    cases resps with
    | nil => simp at hlen
    | cons r0 rtail =>
      obtain ⟨rh, hr0⟩ := hall r0 (by simp)
      obtain ⟨s, hgs, hs1, hsid⟩ := hw (k0, j0) (by simp)
      subst hr0
      have hj0rest : j0 ∉ rest.map Prod.snd := by
        have := hidx
        simp only [List.map_cons, List.nodup_cons] at this
        exact this.1
      have hk0rest : k0 ∉ rest.map Prod.fst := by
        have := hkeys
        simp only [List.map_cons, List.nodup_cons] at this
        exact this.1
      have hmem : w.instances.any (fun p => p.1 == s.sid) = true := by
        rw [hinst, hsid]
        simp
      have hstep := unsubscribe_ok200 w j0 s ⟨200, rh⟩ hgs hs1 rfl hmem
      have hfilter : w.instances.filter (fun p => !(p.1 == s.sid)) = rest := by
        rw [hinst, hsid]
        simp only [List.filter_cons]
        have h1 : (!(k0 == k0)) = false := by simp
        rw [h1]
        simp only [Bool.false_eq_true, if_false, ite_false, reduceIte]
        apply List.filter_eq_self.mpr
        intro p hp
        have hne : p.1 ≠ k0 := by
          intro hpe
          exact hk0rest (by rw [← hpe]; exact List.mem_map_of_mem Prod.fst hp)
        simp [hne]
      rw [hfilter] at hstep
      have hw1 : ∀ p ∈ rest, ∃ s1,
          (w.subs.set j0 { s with state := 2 }).get? p.2 = some s1 ∧
          s1.state = 1 ∧ s1.sid = p.1 := by
        intro p hp
        obtain ⟨s1, hg1, hst1, hsd1⟩ := hw p (by simp [hp])
        refine ⟨s1, ?_, hst1, hsd1⟩
        rw [get?_set_ne w.subs j0 p.2 _ ?_]
        · exact hg1
        · intro he
          exact hj0rest (he ▸ List.mem_map_of_mem Prod.snd hp)
      have hih := ih rtail ⟨w.subs.set j0 { s with state := 2 }, rest⟩
        (acc ++ [⟨"UNSUBSCRIBE", s.base_url ++ s.event_subscription_url⟩])
        hw1
        (by simpa using (List.nodup_cons.mp (by simpa using hkeys)).2)
        (by simpa using (List.nodup_cons.mp (by simpa using hidx)).2)
        rfl
        (by simpa using Nat.succ_le_succ_iff.mp (by simpa using hlen))
        (fun r hr => hall r (by simp [hr]))
      simp only [List.map_cons]
      rw [unsubscribeAllGo]
      simp only [List.headD_cons, List.tail_cons]
      rw [hstep]
      obtain ⟨ih1, ih2, ih3, ih4, ih5⟩ := hih
      refine ⟨ih1, ih2, ?_, ?_, ?_⟩
      · rw [ih3]
        simp
        omega
      · intro j hj
        simp only [List.mem_cons] at hj
        push_neg at hj
        rw [ih4 j (by simpa using hj.2)]
        show (w.subs.set j0 { s with state := 2 }).get? j = w.subs.get? j
        exact get?_set_ne w.subs j0 j _ (fun he => hj.1 he.symm)
      · intro p hp
        simp only [List.mem_cons] at hp
        rcases hp with hp | hp
        · subst hp
          rw [ih4 j0 hj0rest]
          show (Option.map Sub.state ((w.subs.set j0 { s with state := 2 }).get? j0)) = some 2
          rw [get?_set_self w.subs j0 s _ hgs]
          rfl
        · exact ih5 p hp

/-! ## Concrete example objects used by witnesses and counterexamples -/

/-- A fresh subscription object for one player/service. -/
def exSub : Sub := Sub.init "http://10.0.0.5:1400" "/MediaRenderer/AVTransport/Event"

/-- A world holding one brand-new subscription and an empty registry. -/
def exWorld0 : World := ⟨[exSub], []⟩

/-- A well-formed SUBSCRIBE response: status 200 with SID and TIMEOUT. -/
def exRespOK : NetResult :=
  .ok ⟨200, [("SID", "uuid:sub-1"), ("TIMEOUT", "Second-1800")]⟩

/-- The world after a successful auto-renew subscribe against
`exWorld0`. -/
def exWorld1 : World := (Sub.subscribe 0 true exRespOK 100 exWorld0).world

/-- The subscription object inside `exWorld1`. -/
def exSub1 : Sub :=
  { exSub with
    state := 1
    sid := "uuid:sub-1"
    subscribe_url := "http://10.0.0.5:1400/MediaRenderer/AVTransport/Event"
    timeout := 1800
    timestamp := 100
    auto_renew_delay := some 1710
    auto_renew_task := some .running }

/-! ## Claims -/

/-- C1: subscription lifecycle state machine.  For every world reached by
any sequence of operations (the statement quantifies over an arbitrary
world, which is stronger), `subscribe()` fails with the usage error —
mutating nothing and making no network request — from any state other
than NEW (0), and whenever it completes without error the state was NEW
and becomes SUBSCRIBED (1); `renew()` fails with the usage error from any
state other than SUBSCRIBED, and on success the state is still
SUBSCRIBED; `unsubscribe()` from SUBSCRIBED with a 200 response reaches
UNSUBSCRIBED (2), and from NEW or UNSUBSCRIBED it returns without error
and without making any network request; and from UNSUBSCRIBED no
operation changes the state. -/
theorem subscription_state_machine (w : World) (i : Nat) (s : Sub)
    (h : getSub w i = some s) :
    (∀ (ar : Bool) (resp : NetResult) (now : Nat), s.state ≠ 0 →
      Sub.subscribe i ar resp now w = ⟨w, some subscribeUsageError, []⟩) ∧
    (∀ (ar : Bool) (resp : NetResult) (now : Nat),
      (Sub.subscribe i ar resp now w).err = none →
      s.state = 0 ∧
        ((getSub (Sub.subscribe i ar resp now w).world i).map Sub.state) = some 1) ∧
    (∀ (resp : NetResult) (now : Nat), s.state ≠ 1 →
      Sub.renew i resp now w = ⟨w, some renewUsageError, []⟩) ∧
    (∀ (resp : NetResult) (now : Nat), (Sub.renew i resp now w).err = none →
      s.state = 1 ∧
        ((getSub (Sub.renew i resp now w).world i).map Sub.state) = some 1) ∧
    (∀ r : Response, s.state = 1 → r.status = 200 →
      ((getSub (Sub.unsubscribe i (.ok r) w).world i).map Sub.state) = some 2) ∧
    (∀ resp : NetResult, s.state ≠ 1 → Sub.unsubscribe i resp w = ⟨w, none, []⟩) ∧
    (s.state = 2 →
      (∀ (ar : Bool) (resp : NetResult) (now : Nat),
        ((getSub (Sub.subscribe i ar resp now w).world i).map Sub.state) = some 2) ∧
      (∀ (resp : NetResult) (now : Nat),
        ((getSub (Sub.renew i resp now w).world i).map Sub.state) = some 2) ∧
      (∀ resp : NetResult,
        ((getSub (Sub.unsubscribe i resp w).world i).map Sub.state) = some 2)) := by
  refine ⟨fun ar resp now hs => subscribe_not_new w i s ar resp now h hs,
    fun ar resp now he => subscribe_success w i s ar resp now h he,
    fun resp now hs => renew_not_subscribed w i s resp now h hs,
    fun resp now he => renew_success w i s resp now h he,
    fun r hs hst => unsubscribe_200_state w i s r h hs hst,
    fun resp hs => unsubscribe_noop w i s resp h hs,
    fun hs2 => ⟨fun ar resp now => ?_, fun resp now => ?_, fun resp => ?_⟩⟩
  · rw [subscribe_not_new w i s ar resp now h (by omega)]
    simp [h, hs2]
  · rw [renew_not_subscribed w i s resp now h (by omega)]
    simp [h, hs2]
  · rw [unsubscribe_noop w i s resp h (by omega)]
    simp [h, hs2]

/-- Witness for C1: in the subscribed world `exWorld1`, `subscribe()`
fails with the usage error, and in the fresh world `exWorld0`,
`unsubscribe()` is a no-op with no network call. -/
theorem subscription_state_machine_witness :
    Sub.subscribe 0 false exRespOK 100 exWorld1 = ⟨exWorld1, some subscribeUsageError, []⟩ ∧
    Sub.unsubscribe 0 exRespOK exWorld0 = ⟨exWorld0, none, []⟩ :=
  ⟨(subscription_state_machine exWorld1 0 exSub1 (by decide)).1 false exRespOK 100
      (by decide),
   (subscription_state_machine exWorld0 0 exSub (by decide)).2.2.2.2.2.1 exRespOK
      (by decide)⟩

/-- C9: the subscription timeout parser maps the header value
`"infinite"` — in any letter case — to the internal sentinel -1, maps
`"Second-1800"` to 1800, and generally maps `"Second-<N>"` (the literal
prefix followed by the decimal digits of the non-negative integer N) to
N. -/
theorem timeout_header_parsing :
    (∀ s : String, pyLower s = "infinite" → parseTimeoutValue s = .ok (-1)) ∧
    parseTimeoutValue "Second-1800" = .ok 1800 ∧
    (∀ cs : List Char, cs ≠ [] → (∀ c ∈ cs, c.isDigit = true) →
      parseTimeoutValue ("Second-" ++ String.mk cs) = .ok ((digitsVal cs : Nat) : Int)) := by
  refine ⟨fun s h => ?_, by decide, parseTimeoutValue_second⟩
  unfold parseTimeoutValue
  rw [if_pos h]

/-- Witness for C9: evaluated on the concrete header values `"INFINITE"`
and `"Second-25"`. -/
theorem timeout_header_parsing_witness :
    parseTimeoutValue "INFINITE" = .ok (-1) ∧
    parseTimeoutValue ("Second-" ++ String.mk ['2', '5']) = .ok 25 := by
  constructor
  · exact timeout_header_parsing.1 "INFINITE" (by decide)
  · have h := timeout_header_parsing.2.2 ['2', '5'] (by decide) (by decide)
    have hv : ((digitsVal ['2', '5'] : Nat) : Int) = 25 := by decide
    rw [hv] at h
    exact h

/-- C2: notification dispatch.  For every inbound NOTIFY request carrying
`text/xml` content, a SID header and a SEQ header parsing to `n`: when
the SID is registered, exactly one `handle_event` invocation is scheduled
for that subscription, with an Event whose `seq` is `n` and whose
properties are the result of parsing the body; when the SID is not
registered, no invocation is scheduled and the server still returns the
empty-body success response. -/
theorem notify_dispatch (parse : String → Props) (w : World) (req : Request)
    (sid seqStr : String) (n : Int)
    (hm : req.method = "NOTIFY")
    (hct : hGet req.headers "content-type" = .ok "text/xml")
    (hsid : hGet req.headers "sid" = .ok sid)
    (hseq : hGet req.headers "seq" = .ok seqStr)
    (hn : pyInt seqStr = .ok n) :
    (∀ i : Nat, dictGet w.instances sid = some i →
      (EventServer.handle parse w req).scheduled = [⟨i, n, parse req.body⟩] ∧
      (EventServer.handle parse w req).response = .ok (200, "")) ∧
    (dictGet w.instances sid = none →
      (EventServer.handle parse w req).scheduled = [] ∧
      (EventServer.handle parse w req).response = .ok (200, "")) := by
  unfold EventServer.handle parse_event
  constructor
  · intro i hi
    simp [hm, hct, hsid, hseq, hn, hi]
  · intro hi
    simp [hm, hct, hsid, hseq, hn, hi]

/-- Witness for C2: a NOTIFY for the registered sid `"uuid:sub-1"` with
`SEQ: 5` schedules exactly one handler invocation carrying seq 5 and the
parsed properties. -/
theorem notify_dispatch_witness :
    (EventServer.handle (fun _ => [("ZoneGroupState", "z")]) exWorld1
      ⟨"NOTIFY", [("Content-Type", "text/xml"), ("SID", "uuid:sub-1"), ("SEQ", "5")],
        "<propertyset/>"⟩).scheduled = [⟨0, 5, [("ZoneGroupState", "z")]⟩] ∧
    (EventServer.handle (fun _ => [("ZoneGroupState", "z")]) exWorld1
      ⟨"NOTIFY", [("Content-Type", "text/xml"), ("SID", "uuid:sub-1"), ("SEQ", "5")],
        "<propertyset/>"⟩).response = .ok (200, "") :=
  (notify_dispatch (fun _ => [("ZoneGroupState", "z")]) exWorld1
    ⟨"NOTIFY", [("Content-Type", "text/xml"), ("SID", "uuid:sub-1"), ("SEQ", "5")],
      "<propertyset/>"⟩ "uuid:sub-1" "5" 5
    (by decide) (by decide) (by decide) (by decide) (by decide)).1 0 (by decide)

/-- C10 (implicit): a request whose method is not NOTIFY — or is NOTIFY
with a Content-Type header present but different from `text/xml` — is
silently acknowledged: no registry lookup, no scheduled handler
invocation, and the empty-body 200 response. -/
theorem non_notify_acknowledged (parse : String → Props) (w : World) (req : Request)
    (h : req.method ≠ "NOTIFY" ∨
      (req.method = "NOTIFY" ∧
        ∃ ct, hGet req.headers "content-type" = .ok ct ∧ ct ≠ "text/xml")) :
    (EventServer.handle parse w req).lookups = 0 ∧
    (EventServer.handle parse w req).scheduled = [] ∧
    (EventServer.handle parse w req).response = .ok (200, "") := by
  unfold EventServer.handle
  rcases h with h | ⟨hm, ct, hct, hne⟩
  · simp [h]
  · simp [hm, hct, hne]

/-- Witness for C10: a GET request, and a NOTIFY carrying
`Content-Type: application/json`, are both acknowledged with 200 and
dispatch nothing. -/
theorem non_notify_acknowledged_witness :
    ((EventServer.handle (fun _ => []) exWorld1 ⟨"GET", [], ""⟩).lookups = 0 ∧
      (EventServer.handle (fun _ => []) exWorld1 ⟨"GET", [], ""⟩).scheduled = [] ∧
      (EventServer.handle (fun _ => []) exWorld1 ⟨"GET", [], ""⟩).response = .ok (200, "")) ∧
    ((EventServer.handle (fun _ => []) exWorld1
        ⟨"NOTIFY", [("Content-Type", "application/json"), ("SID", "uuid:sub-1")], ""⟩).scheduled = []) :=
  ⟨non_notify_acknowledged (fun _ => []) exWorld1 ⟨"GET", [], ""⟩ (Or.inl (by decide)),
   (non_notify_acknowledged (fun _ => []) exWorld1
      ⟨"NOTIFY", [("Content-Type", "application/json"), ("SID", "uuid:sub-1")], ""⟩
      (Or.inr ⟨by decide, "application/json", by decide, by decide⟩)).2.1⟩

/-- Counterexample for C5: a NOTIFY with `text/xml` content whose SEQ
header is missing, for a registered SID, makes the handler raise
`KeyError`, which the web framework turns into a **500 server-error**
response — not the client-error (4xx) response the claim asserts — while
indeed performing no registry lookup and scheduling no handler. -/
theorem malformed_notify_counterexample :
    (EventServer.handle (fun _ => []) exWorld1
      ⟨"NOTIFY", [("Content-Type", "text/xml"), ("SID", "uuid:sub-1")], "<xml/>"⟩).lookups = 0 ∧
    (EventServer.handle (fun _ => []) exWorld1
      ⟨"NOTIFY", [("Content-Type", "text/xml"), ("SID", "uuid:sub-1")], "<xml/>"⟩).scheduled = [] ∧
    serverStatus (EventServer.handle (fun _ => []) exWorld1
      ⟨"NOTIFY", [("Content-Type", "text/xml"), ("SID", "uuid:sub-1")], "<xml/>"⟩) = 500 ∧
    ¬(400 ≤ serverStatus (EventServer.handle (fun _ => []) exWorld1
        ⟨"NOTIFY", [("Content-Type", "text/xml"), ("SID", "uuid:sub-1")], "<xml/>"⟩) ∧
      serverStatus (EventServer.handle (fun _ => []) exWorld1
        ⟨"NOTIFY", [("Content-Type", "text/xml"), ("SID", "uuid:sub-1")], "<xml/>"⟩) < 500) := by
  decide

/-- C5 as amended: a NOTIFY (with `text/xml` content) missing the SID
header, or missing the SEQ header, is rejected before any registry
lookup occurs and schedules no handler invocation; the rejection is an
uncaught `KeyError` in the handler, surfaced to the device as the
framework's 500 server-error response rather than a client-error
response. -/
theorem malformed_notify_rejected (parse : String → Props) (w : World) (req : Request)
    (hm : req.method = "NOTIFY")
    (hct : hGet req.headers "content-type" = .ok "text/xml")
    (h : hGet req.headers "sid" = .error (.keyError "sid") ∨
      (∃ sid, hGet req.headers "sid" = .ok sid ∧
        hGet req.headers "seq" = .error (.keyError "seq"))) :
    (EventServer.handle parse w req).lookups = 0 ∧
    (EventServer.handle parse w req).scheduled = [] ∧
    serverStatus (EventServer.handle parse w req) = 500 := by
  unfold EventServer.handle parse_event serverStatus
  rcases h with h | ⟨sid, hsid, hseq⟩
  · simp [hm, hct, h]
  · simp [hm, hct, hsid, hseq]

/-- Witness for C5 (amended): concrete NOTIFY requests missing SEQ
(registered SID) and missing SID. -/
theorem malformed_notify_rejected_witness :
    ((EventServer.handle (fun _ => []) exWorld1
        ⟨"NOTIFY", [("Content-Type", "text/xml"), ("SID", "uuid:sub-1")], "<xml/>"⟩).lookups = 0 ∧
      (EventServer.handle (fun _ => []) exWorld1
        ⟨"NOTIFY", [("Content-Type", "text/xml"), ("SID", "uuid:sub-1")], "<xml/>"⟩).scheduled = [] ∧
      serverStatus (EventServer.handle (fun _ => []) exWorld1
        ⟨"NOTIFY", [("Content-Type", "text/xml"), ("SID", "uuid:sub-1")], "<xml/>"⟩) = 500) ∧
    serverStatus (EventServer.handle (fun _ => []) exWorld1
      ⟨"NOTIFY", [("Content-Type", "text/xml"), ("SEQ", "5")], "<xml/>"⟩) = 500 :=
  ⟨malformed_notify_rejected (fun _ => []) exWorld1
      ⟨"NOTIFY", [("Content-Type", "text/xml"), ("SID", "uuid:sub-1")], "<xml/>"⟩
      (by decide) (by decide) (Or.inr ⟨"uuid:sub-1", by decide, by decide⟩),
   (malformed_notify_rejected (fun _ => []) exWorld1
      ⟨"NOTIFY", [("Content-Type", "text/xml"), ("SEQ", "5")], "<xml/>"⟩
      (by decide) (by decide) (Or.inl (by decide))).2.2⟩

/-- C3 (bug evaluated at the failing input): a 200 SUBSCRIBE response
carrying a SID header but no TIMEOUT header makes `subscribe()` raise
`KeyError("timeout")` — yet by then the sid has already been assigned and
the subscription registered in `_instances`, while the state is still
NEW: a partially transitioned Subscription, violating the all-or-nothing
requirement (and the source's own documented invariant that `_instances`
maps sids to subscriptions in state 1).  For contrast, a response missing
the SID header leaves none of the three effects. -/
theorem subscribe_nonatomic :
    ((Sub.subscribe 0 false (.ok ⟨200, [("SID", "uuid:sub-1")]⟩) 100 exWorld0).err =
        some (.keyError "timeout") ∧
      ((getSub (Sub.subscribe 0 false (.ok ⟨200, [("SID", "uuid:sub-1")]⟩) 100
        exWorld0).world 0).map Sub.state) = some 0 ∧
      ((getSub (Sub.subscribe 0 false (.ok ⟨200, [("SID", "uuid:sub-1")]⟩) 100
        exWorld0).world 0).map Sub.sid) = some "uuid:sub-1" ∧
      (Sub.subscribe 0 false (.ok ⟨200, [("SID", "uuid:sub-1")]⟩) 100
        exWorld0).world.instances = [("uuid:sub-1", 0)]) ∧
    ((Sub.subscribe 0 false (.ok ⟨200, [("TIMEOUT", "Second-1800")]⟩) 100 exWorld0).err =
        some (.keyError "sid") ∧
      ((getSub (Sub.subscribe 0 false (.ok ⟨200, [("TIMEOUT", "Second-1800")]⟩) 100
        exWorld0).world 0).map Sub.state) = some 0 ∧
      ((getSub (Sub.subscribe 0 false (.ok ⟨200, [("TIMEOUT", "Second-1800")]⟩) 100
        exWorld0).world 0).map Sub.sid) = some "" ∧
      (Sub.subscribe 0 false (.ok ⟨200, [("TIMEOUT", "Second-1800")]⟩) 100
        exWorld0).world.instances = []) := by
  decide

/-- Counterexample for C4: on a 412 response to UNSUBSCRIBE from the
SUBSCRIBED state, the call completes without error but the subscription
stays in state 1 and its registry entry is retained — it is *not*
treated like a 200 success as the claim asserts. -/
theorem unsubscribe_412_counterexample :
    (Sub.unsubscribe 0 (.ok ⟨412, []⟩) exWorld1).err = none ∧
    ((getSub (Sub.unsubscribe 0 (.ok ⟨412, []⟩) exWorld1).world 0).map Sub.state) = some 1 ∧
    (Sub.unsubscribe 0 (.ok ⟨412, []⟩) exWorld1).world.instances = [("uuid:sub-1", 0)] := by
  decide

/-- C4 as amended: `unsubscribe()` from SUBSCRIBED makes the UNSUBSCRIBE
request and inspects only the status: exactly status 200 transitions to
UNSUBSCRIBED and removes the registry entry; any other status — 412
included — returns without error but leaves the subscription SUBSCRIBED
and its registry entry in place. -/
theorem unsubscribe_only_200 (w : World) (i : Nat) (s : Sub) (r : Response)
    (h : getSub w i = some s) (hs : s.state = 1) :
    (r.status ≠ 200 →
      Sub.unsubscribe i (.ok r) w =
        ⟨w, none, [⟨"UNSUBSCRIBE", s.base_url ++ s.event_subscription_url⟩]⟩) ∧
    (r.status = 200 → w.instances.any (fun p => p.1 == s.sid) = true →
      Sub.unsubscribe i (.ok r) w =
        ⟨⟨w.subs.set i { s with state := 2 },
            w.instances.filter (fun p => !(p.1 == s.sid))⟩,
          none, [⟨"UNSUBSCRIBE", s.base_url ++ s.event_subscription_url⟩]⟩) := by
  constructor
  · intro hne
    unfold Sub.unsubscribe
    rw [h]
    simp [hs, hne]
  · intro h200 hmem
    exact unsubscribe_ok200 w i s r h hs h200 hmem

/-- Witness for C4 (amended): in `exWorld1`, a 412 response leaves the
world unchanged without error, and a 200 response unsubscribes and
empties the registry. -/
theorem unsubscribe_only_200_witness :
    Sub.unsubscribe 0 (.ok ⟨412, []⟩) exWorld1 =
      ⟨exWorld1, none,
        [⟨"UNSUBSCRIBE", exSub1.base_url ++ exSub1.event_subscription_url⟩]⟩ ∧
    Sub.unsubscribe 0 (.ok ⟨200, []⟩) exWorld1 =
      ⟨⟨exWorld1.subs.set 0 { exSub1 with state := 2 },
          exWorld1.instances.filter (fun p => !(p.1 == exSub1.sid))⟩,
        none, [⟨"UNSUBSCRIBE", exSub1.base_url ++ exSub1.event_subscription_url⟩]⟩ :=
  ⟨(unsubscribe_only_200 exWorld1 0 exSub1 ⟨412, []⟩ (by decide) (by decide)).1 (by decide),
   (unsubscribe_only_200 exWorld1 0 exSub1 ⟨200, []⟩ (by decide) (by decide)).2
      (by decide) (by decide)⟩

/-- The world after a successful (status-200) unsubscribe of the
auto-renewing subscription in `exWorld1`. -/
def exWorld2 : World := (Sub.unsubscribe 0 (.ok ⟨200, []⟩) exWorld1).world

/-- C6 (bug evaluated at the failing input): after subscribing with
auto-renew (granted timeout `Second-1800`) and then completing a
successful `unsubscribe()`, the subscription is UNSUBSCRIBED but its
renewal task handle is still present and not cancelled — `unsubscribe()`
never touches `auto_renew_task` — so the renewal loop's next iteration
still fires a renewal attempt against the unsubscribed subscription,
which raises the usage error that the loop catches and logs. -/
theorem renewal_loop_not_cancelled :
    ((getSub exWorld2 0).map Sub.state) = some 2 ∧
    ((getSub exWorld2 0).map Sub.auto_renew_task) = some (some .running) ∧
    (auto_renew_loop_iter 0 (.ok ⟨200, [("TIMEOUT", "Second-1800")]⟩) 2000 exWorld2).2 =
      some renewUsageError := by
  decide

/-- Counterexample for C8: `handle_event` does not catch an exception
raised by the caller-supplied callback — the call returns the callback's
error instead of swallowing it at that boundary. -/
theorem handler_exception_counterexample :
    Sub.handle_event (fun _ => .error (.callbackError "boom")) ⟨0, 5, [("a", "b")]⟩ =
      .error (.callbackError "boom") := rfl

/-- C8 as amended: `handle_event` propagates the handler's outcome —
including any exception — unchanged to its caller; nevertheless the
notification server's request handling is unaffected by the handler's
behavior, because `handle` only schedules `handle_event` via
`call_soon` and computes its HTTP response without running any handler:
the response and scheduling are identical for any two callbacks. -/
theorem handler_exception_propagation (cb cb' : EventV → Except PyErr Unit)
    (e : EventV) (parse : String → Props) (w : World) (req : Request) :
    Sub.handle_event cb e = cb e ∧
    (serverStep parse cb w req).1 = (serverStep parse cb' w req).1 :=
  ⟨rfl, rfl⟩

/-- A registry holding two live subscriptions, for the bulk-teardown
claim. -/
def exWorldK : World :=
  ⟨[{ Sub.init "http://10.0.0.5:1400" "/e1" with state := 1, sid := "sid-a" },
    { Sub.init "http://10.0.0.6:1400" "/e2" with state := 1, sid := "sid-b" }],
   [("sid-a", 0), ("sid-b", 1)]⟩

/-- Counterexample for C7: with K = 2 live subscriptions, a transport
error on the first unsubscribe attempt propagates out of
`unsubscribe_all` (there is no try/except in the loop): only one attempt
is made, the teardown of the second subscription is aborted — it stays
SUBSCRIBED — and the registry is left with both entries rather than
empty. -/
theorem unsubscribe_all_counterexample :
    (unsubscribe_all [.error (.transportError "timeout"), .ok ⟨200, []⟩] exWorldK).err =
      some (.transportError "timeout") ∧
    (unsubscribe_all [.error (.transportError "timeout"), .ok ⟨200, []⟩]
      exWorldK).calls.length = 1 ∧
    (unsubscribe_all [.error (.transportError "timeout"), .ok ⟨200, []⟩]
      exWorldK).world.instances = [("sid-a", 0), ("sid-b", 1)] ∧
    ((getSub (unsubscribe_all [.error (.transportError "timeout"), .ok ⟨200, []⟩]
      exWorldK).world 1).map Sub.state) = some 1 := by
  decide

/-- C7 as amended: `unsubscribe_all()` iterates over a snapshot of the
registry values taken before iterating; when every one of the K attempts
gets a 200 response, K unsubscribe attempts are made, every subscription
reaches UNSUBSCRIBED and the registry is left empty — but a transport
error raised by an attempt propagates out of `unsubscribe_all` after a
single network call, aborting the teardown of the remaining
subscriptions rather than continuing past the failure. -/
theorem unsubscribe_all_teardown (w : World)
    (hw : ∀ p ∈ w.instances, ∃ s, getSub w p.2 = some s ∧ s.state = 1 ∧ s.sid = p.1)
    (hkeys : (w.instances.map Prod.fst).Nodup)
    (hidx : (w.instances.map Prod.snd).Nodup) :
    (∀ resps : List NetResult, w.instances.length ≤ resps.length →
      (∀ r ∈ resps, ∃ hs, r = .ok ⟨200, hs⟩) →
      (unsubscribe_all resps w).err = none ∧
      (unsubscribe_all resps w).world.instances = [] ∧
      (unsubscribe_all resps w).calls.length = w.instances.length ∧
      (∀ p ∈ w.instances,
        ((getSub (unsubscribe_all resps w).world p.2).map Sub.state) = some 2)) ∧
    (∀ (e : PyErr) (rest : List NetResult) (k : String) (j : Nat)
        (tl : List (String × Nat)) (s : Sub),
      w.instances = (k, j) :: tl → getSub w j = some s → s.state = 1 →
      unsubscribe_all (.error e :: rest) w =
        ⟨w, some e, [⟨"UNSUBSCRIBE", s.base_url ++ s.event_subscription_url⟩]⟩) := by
  constructor
  · intro resps hlen hall
    obtain ⟨h1, h2, h3, _, h5⟩ := go_ok w.instances resps w [] hw hkeys hidx rfl hlen hall
    exact ⟨h1, h2, by simpa using h3, h5⟩
  · intro e rest k j tl s hins hg hs1
    unfold unsubscribe_all
    rw [hins]
    simp only [List.map_cons]
    rw [unsubscribeAllGo]
    simp only [List.headD_cons]
    have hstep : Sub.unsubscribe j (.error e) w =
        ⟨w, some e, [⟨"UNSUBSCRIBE", s.base_url ++ s.event_subscription_url⟩]⟩ := by
      unfold Sub.unsubscribe
      rw [hg]
      simp [hs1]
    rw [hstep]
    simp

/-- Witness for C7 (amended): tearing down `exWorldK` with two 200
responses makes two attempts, empties the registry and raises nothing. -/
theorem unsubscribe_all_teardown_witness :
    (unsubscribe_all [.ok ⟨200, []⟩, .ok ⟨200, []⟩] exWorldK).err = none ∧
    (unsubscribe_all [.ok ⟨200, []⟩, .ok ⟨200, []⟩] exWorldK).world.instances = [] ∧
    (unsubscribe_all [.ok ⟨200, []⟩, .ok ⟨200, []⟩] exWorldK).calls.length =
      exWorldK.instances.length := by
  have h := (unsubscribe_all_teardown exWorldK
    (by
      intro p hp
      simp only [exWorldK, List.mem_cons, List.not_mem_nil, or_false] at hp
      rcases hp with hp | hp <;> subst hp
      · exact ⟨_, rfl, rfl, rfl⟩
      · exact ⟨_, rfl, rfl, rfl⟩)
    (by decide) (by decide)).1 [.ok ⟨200, []⟩, .ok ⟨200, []⟩] (by decide)
    (by
      intro r hr
      simp only [List.mem_cons, List.not_mem_nil, or_false] at hr
      rcases hr with hr | hr <;> exact ⟨[], hr⟩)
  exact ⟨h.1, h.2.1, h.2.2.1⟩

end Aiosonos
